import Mathlib

/-!
# Verification of the computational core of `cafe_dashboard.py`

Shallow embedding of the live-prediction subsystem of the Coffee & Books
Cafe dashboard: the data loader, the classification pipeline builder with
its failure handling, the nearest-centroid persona matcher, the
regression-style spend estimator, and (modelled from the specification,
since they have no counterpart in the source) the rule-based fallback
predictor and the scikit-learn encoder/classifier semantics.

Numbers are embedded as exact rationals; Euclidean distances are compared
through squared distances, which induces the same ordering.
-/

namespace Cafe

/-- One survey respondent row, with the three numeric columns and the
eight categorical columns that the dashboard feeds to the pipeline. -/
structure SurveyRecord where
  avgSpend : ℚ
  totalSpend : ℚ
  willingPay : ℚ
  ageGroup : String
  gender : String
  employment : String
  income : String
  education : String
  cafeFreq : String
  readFreq : String
  visitReason : String
  deriving Repr, DecidableEq

/-- The loaded dataset: an ordered collection of survey records. -/
abbrev Dataset : Type := List SurveyRecord

/-! ## 4.5 Regression-style spend estimator (Simulation Lab, tab 1)

Embeds the computation at lines 935-955 of `cafe_dashboard.py`:
a base of 35.0, an if/elif chain of income adjustments, two independent
visit-reason adjustments, then `max(15, min(300, base_spend))`. -/

/-- `base_spend` before clamping, mirroring the sequential updates of the
Python local variable `base_spend`. -/
def base_spend (reg_income : String) (reg_reason : List String) : ℚ :=
  let b0 : ℚ := 35.0
  let b1 : ℚ :=
    if reg_income = "Above 75,000" then b0 + 117.24
    else if reg_income = "50,001 - 75,000" then b0 + 89.74
    else if reg_income = "35,001 - 50,000" then b0 + 14.16
    else if reg_income = "Less than 5,000" then b0 - 46.20
    else if reg_income = "5,000 - 10,000" then b0 - 39.10
    else b0
  let b2 : ℚ :=
    if "Food quality" ∈ reg_reason ∧ "Work/study" ∈ reg_reason then b1 + 26.42 else b1
  let b3 : ℚ :=
    if "Coffee quality" ∈ reg_reason ∧ "Food quality" ∈ reg_reason then b2 - 11.61 else b2
  b3

/-- `final_spend = max(15, min(300, base_spend))`. -/
def final_spend (reg_income : String) (reg_reason : List String) : ℚ :=
  max 15 (min 300 (base_spend reg_income reg_reason))

/-- Spec-side restatement: the bonus the spec attributes to the pair
{Food quality, Work/study}. -/
def foodWorkBonus (rs : List String) : ℚ :=
  if "Food quality" ∈ rs ∧ "Work/study" ∈ rs then 26.42 else 0

/-- Spec-side restatement: the penalty the spec attributes to the pair
{Coffee quality, Food quality}. -/
def coffeeFoodPenalty (rs : List String) : ℚ :=
  if "Coffee quality" ∈ rs ∧ "Food quality" ∈ rs then 11.61 else 0

/-! ## 4.4 Centroid matcher (Simulation Lab, tab 2)

Embeds lines 1052-1083: four fixed centroids in insertion order, and
`min(centroids.keys(), key=...)`, which scans the keys in order and
replaces the current best only on a strictly smaller distance — so the
first index attaining the minimum wins. -/

/-- A 3-dimensional point (avg spend, total spend, membership WTP). -/
abbrev Point3 : Type := ℚ × ℚ × ℚ

/-- Squared Euclidean distance on raw (unstandardized) units; ordering
agrees with `np.linalg.norm`. -/
def dist2 (a b : Point3) : ℚ :=
  (a.1 - b.1) ^ 2 + (a.2.1 - b.2.1) ^ 2 + (a.2.2 - b.2.2) ^ 2

/-- The four fixed centroid centers, in dictionary insertion order. -/
def center : Fin 4 → Point3
  | 0 => (26.92, 46.91, 67.36)
  | 1 => (39.78, 73.88, 247.29)
  | 2 => (58.78, 142.43, 8.06)
  | 3 => (69.30, 168.79, 367.73)

/-- The dictionary keys, i.e. the labels returned to the user. -/
def clusterLabel : Fin 4 → String
  | 0 => "Cluster 0 (Budget Casual)"
  | 1 => "Cluster 1 (Bookworm)"
  | 2 => "Cluster 2 (Social Visitor)"
  | 3 => "Cluster 3 (Premium Enthusiast)"

/-- Distance from the user point to centroid `i`. -/
def cdist (p : Point3) (i : Fin 4) : ℚ := dist2 p (center i)

/-- Index chosen by Python `min` over the ordered dict: start at key 0 and
replace the running best only when strictly closer. -/
def best_idx (p : Point3) : Fin 4 :=
  let b1 : Fin 4 := if cdist p 1 < cdist p 0 then 1 else 0
  let b2 : Fin 4 := if cdist p 2 < cdist p b1 then 2 else b1
  if cdist p 3 < cdist p b2 then 3 else b2

/-- `best_cluster`: the label of the chosen centroid. -/
def best_cluster (p : Point3) : String := clusterLabel (best_idx p)

/-! ## 4.1 Data loader

Embeds lines 129-146: `load_data` wraps a single `pd.read_csv(DATA_URL)`
in try/except and returns the frame on success or `None` on any
exception; the caller then runs `st.stop()` when the result is `None`.
The outcome of the remote read is passed in explicitly as an
`Except`. -/

/-- `load_data`: returns the frame read from the remote URL, or `None`
when the read raised. This is the only source attempted. -/
def load_data (read_csv : Except String Dataset) : Option Dataset :=
  match read_csv with
  | .ok df => some df
  | .error _ => none

/-- What the script does right after loading: `if df is None: st.stop()`. -/
inductive AppStart where
  | halted
  | running (df : Dataset)
  deriving Repr, DecidableEq

/-- The post-load guard at lines 142-146. -/
def appAfterLoad (read_csv : Except String Dataset) : AppStart :=
  match load_data read_csv with
  | none => .halted
  | some df => .running df

/-! ## 4.2 Classification pipeline builder (Live Prospect Simulator)

Embeds lines 730-771. The fitted scikit-learn object is modelled as the
state it holds after `fit`: the numeric means and scales of the
`StandardScaler`, the category lists of the `OneHotEncoder`, and the
preprocessed training vectors with their binary labels kept by the
`KNeighborsClassifier`. `fit` itself may raise; its outcome is passed in
as an `Except`. -/

/-- The trained pipeline artifact. -/
structure FittedPipeline where
  numMeans : List ℚ
  numScales : List ℚ
  catCategories : List (List String)
  train : List (List ℚ × Bool)
  deriving Repr, DecidableEq

/-- `build_prediction_pipeline`: returns `(clf_pipeline, df, True)` when
fitting succeeds and `(None, None, False)` when it raises
(lines 760-764). -/
def build_prediction_pipeline (df : Dataset) (fit : Except String FittedPipeline) :
    Option FittedPipeline × Option Dataset × Bool :=
  match fit with
  | .ok p => (some p, some df, true)
  | .error _ => (none, none, false)

/-- What the Live Prospect Simulator page does with the build result:
either halt or show the prediction form. -/
inductive SimulatorOutcome where
  | stopped
  | formShown (pipeline : Option FittedPipeline) (dfRef : Option Dataset)
  deriving Repr, DecidableEq

/-- Lines 766-773: `if not model_ready: st.error(...); st.stop()`,
otherwise the page proceeds with the returned pipeline and frame. -/
def simulatorPage (df : Dataset) (fit : Except String FittedPipeline) : SimulatorOutcome :=
  let r := build_prediction_pipeline df fit
  if r.2.2 then .formShown r.1 r.2.1 else .stopped

/-! ## 4.3 Rule-based fallback predictor -/

/-- Modelled from the spec: no `predict_fallback` appears anywhere in
`src/cafe_dashboard.py` (on build failure the page stops instead of
falling back), so the rule-based fallback predictor of spec section 4.3
is embedded from the words of the spec: base 0.5, +0.20 for the top two
income brackets, +0.15 when total spend exceeds 100, +0.10 for a
regular-reader reading frequency, clamped to at most 0.95. Which reading
frequency strings count as regular-reader is left as a predicate
parameter. -/
def predict_fallback (isRegularReader : String → Bool) (r : SurveyRecord) : ℚ :=
  let s0 : ℚ := 0.5
  let s1 : ℚ :=
    if r.income = "Above 75,000" ∨ r.income = "50,001 - 75,000" then s0 + 0.20 else s0
  let s2 : ℚ := if r.totalSpend > 100 then s1 + 0.15 else s1
  let s3 : ℚ := if isRegularReader r.readFreq then s2 + 0.10 else s2
  min s3 0.95

/-! ## Preprocessing and nearest-neighbor prediction

The encoder and classifier semantics live in scikit-learn, not in the
repository, so they are modelled from the spec (sections 4.2 and 3):
one-hot encoding that sends unseen categories to all zeros, numeric
standardization from fitted means/scales, and a probability that is the
fraction of positive labels among the `k = 5` nearest training vectors
(the `KNeighborsClassifier` default). -/

/-- Modelled from the spec: `OneHotEncoder(handle_unknown = ignore)` maps
a value to its indicator vector over the categories seen at fit time; a
value absent from the categories yields all zeros. -/
def oneHot (cats : List String) (v : String) : List ℚ :=
  cats.map (fun c => if c = v then 1 else 0)

/-- Modelled from the spec: `StandardScaler.transform`, using the means
and scales stored at fit time. -/
def scaleNums (means scales xs : List ℚ) : List ℚ :=
  List.zipWith (fun ms x => (x - ms.1) / ms.2) (means.zip scales) xs

/-- One-hot encode the eight categorical values against the fitted
category lists and concatenate. -/
def encodeCats (catLists : List (List String)) (vals : List String) : List ℚ :=
  (List.zipWith oneHot catLists vals).flatten

/-- The `ColumnTransformer`: scaled numeric features followed by the
concatenated one-hot blocks, in the feature order of lines 735-737. -/
def featurize (pl : FittedPipeline) (r : SurveyRecord) : List ℚ :=
  scaleNums pl.numMeans pl.numScales [r.avgSpend, r.totalSpend, r.willingPay] ++
    encodeCats pl.catCategories
      [r.ageGroup, r.gender, r.employment, r.income, r.education,
       r.cafeFreq, r.readFreq, r.visitReason]

/-- Squared Euclidean distance between feature vectors. -/
def dist2v (a b : List ℚ) : ℚ :=
  (List.zipWith (fun x y => (x - y) ^ 2) a b).sum

/-- Insert a labelled training vector into a list kept sorted by distance
to the query. -/
def insertByDist (q : List ℚ) (x : List ℚ × Bool) : List (List ℚ × Bool) → List (List ℚ × Bool)
  | [] => [x]
  | y :: t => if dist2v q x.1 < dist2v q y.1 then x :: y :: t else y :: insertByDist q x t

/-- Sort the training set by distance to the query. -/
def sortByDist (q : List ℚ) (l : List (List ℚ × Bool)) : List (List ℚ × Bool) :=
  l.foldr (insertByDist q) []

/-- Modelled from the spec: `predict_proba` of the fitted pipeline — the
fraction of positive labels among the 5 nearest training vectors of the
featurized query (line 823 reads component 1 of the first row). -/
def predict_proba (pl : FittedPipeline) (r : SurveyRecord) : ℚ :=
  (((sortByDist (featurize pl r) pl.train).take 5).countP (fun e => e.2) : ℚ) /
    (((sortByDist (featurize pl r) pl.train).take 5).length : ℚ)

/-! ## Concrete sample data used by witnesses -/

/-- A concrete prospect record. -/
def sampleRecord : SurveyRecord :=
  { avgSpend := 50, totalSpend := 100, willingPay := 50,
    ageGroup := "25-34", gender := "Male", employment := "Employed full-time",
    income := "20,001 - 35,000", education := "Bachelors degree",
    cafeFreq := "Once a week", readFreq := "Regular reader (3-5 times per week)",
    visitReason := "Coffee quality" }

/-- A concrete fitted pipeline with five training rows. -/
def samplePipeline : FittedPipeline :=
  { numMeans := [50, 100, 50], numScales := [10, 20, 25],
    catCategories :=
      [["25-34"], ["Male"], ["Employed full-time"], ["20,001 - 35,000"],
       ["Bachelors degree"], ["Once a week"], ["Regular reader (3-5 times per week)"],
       ["Coffee quality"]],
    train :=
      [([0, 0, 0, 1, 1, 1, 1, 1, 1, 1, 1], true),
       ([1, 1, 1, 1, 1, 1, 1, 1, 1, 1, 1], false),
       ([2, 0, 1, 1, 1, 1, 1, 1, 1, 1, 1], true),
       ([3, 2, 2, 0, 1, 1, 1, 1, 1, 1, 1], false),
       ([5, 5, 5, 0, 0, 1, 1, 1, 1, 1, 1], true)] }

/-! ## Helper lemmas

`best_idx` returns the first index attaining the minimum distance. -/

lemma best_idx_min (p : Point3) : ∀ j, cdist p (best_idx p) ≤ cdist p j := by
  intro j
  unfold best_idx
  dsimp only
  split_ifs with h1 h2 h3 h3 h2 h3 h3 <;> fin_cases j <;> simp_all <;> linarith

lemma best_idx_first (p : Point3) : ∀ j, j < best_idx p → cdist p (best_idx p) < cdist p j := by
  intro j hj
  unfold best_idx at *
  dsimp only at *
  split_ifs at * with h1 h2 h3 h3 h2 h3 h3 <;> fin_cases j <;> simp_all <;> linarith

lemma best_idx_eq_of_first_argmin (p : Point3) (i : Fin 4)
    (hmin : ∀ j, cdist p i ≤ cdist p j)
    (hfirst : ∀ j, j < i → cdist p i < cdist p j) :
    best_idx p = i := by
  rcases lt_trichotomy (best_idx p) i with h | h | h
  · exact absurd (best_idx_min p i) (not_le.mpr (hfirst (best_idx p) h))
  · exact h
  · exact absurd (hmin (best_idx p)) (not_le.mpr (best_idx_first p i h))

lemma best_idx_center (k : Fin 4) : best_idx (center k) = k := by
  apply best_idx_eq_of_first_argmin
  · intro j
    fin_cases k <;> fin_cases j <;> norm_num [cdist, dist2, center]
  · intro j hj
    fin_cases k <;> fin_cases j <;>
      first
        | exact absurd hj (by decide)
        | norm_num [cdist, dist2, center]

lemma length_insertByDist (q : List ℚ) (x : List ℚ × Bool) (l : List (List ℚ × Bool)) :
    (insertByDist q x l).length = l.length + 1 := by
  induction l with
  | nil => rfl
  | cons y t ih => unfold insertByDist; split_ifs <;> simp [ih]

lemma length_sortByDist (q : List ℚ) (l : List (List ℚ × Bool)) :
    (sortByDist q l).length = l.length := by
  induction l with
  | nil => rfl
  | cons y t ih =>
      unfold sortByDist at ih ⊢
      simp [List.foldr, length_insertByDist, ih]

lemma predict_proba_mem_unit (pl : FittedPipeline) (r : SurveyRecord) :
    0 ≤ predict_proba pl r ∧ predict_proba pl r ≤ 1 := by
  unfold predict_proba
  rcases Nat.eq_zero_or_pos ((sortByDist (featurize pl r) pl.train).take 5).length with h | h
  · rw [List.length_eq_zero] at h
    simp [h]
  · have hc : ((sortByDist (featurize pl r) pl.train).take 5).countP (fun e => e.2) ≤
        ((sortByDist (featurize pl r) pl.train).take 5).length :=
      List.countP_le_length _
    have hpos : (0 : ℚ) < (((sortByDist (featurize pl r) pl.train).take 5).length : ℚ) := by
      exact_mod_cast h
    constructor
    · positivity
    · rw [div_le_one hpos]
      exact_mod_cast hc

lemma oneHot_unseen (cats : List String) (v : String) (h : v ∉ cats) :
    oneHot cats v = List.replicate cats.length 0 := by
  induction cats with
  | nil => rfl
  | cons c t ih =>
      rw [List.mem_cons, not_or] at h
      have hc : ¬ c = v := fun hcv => h.1 hcv.symm
      simp only [oneHot, List.map_cons, List.length_cons, List.replicate_succ, if_neg hc]
      exact congrArg (List.cons 0) (ih h.2)

/-! ## Claim theorems -/

/-- C1 counterexample: when the single remote read raises, `load_data`
returns `None` — an empty/null dataset reaches the caller (which then
halts the app), refuting the claimed path-A/path-B/synthetic fallback
chain. -/
theorem load_data_counterexample :
    load_data (.error "HTTPError") = none ∧
    appAfterLoad (.error "HTTPError") = .halted :=
  ⟨rfl, rfl⟩

/-- C1 (amended): the data loader attempts exactly one source, the
remote URL. On success it returns that frame; on any failure it returns
`None` — there is no local path, no synthetic dataset — and the script
then halts via `st.stop()` so no caller proceeds with a dataset. -/
theorem load_data_single_remote_source :
    (∀ df : Dataset, load_data (.ok df) = some df ∧ appAfterLoad (.ok df) = .running df) ∧
    (∀ e : String, load_data (.error e) = none ∧ appAfterLoad (.error e) = .halted) :=
  ⟨fun _ => ⟨rfl, rfl⟩, fun _ => ⟨rfl, rfl⟩⟩

/-- C2: the rule-based fallback predictor (modelled from the spec, since
it has no counterpart in the source) equals a base of 0.5 plus 0.20 for a
top-two income bracket, plus 0.15 when total spend exceeds 100, plus 0.10
for a regular-reader reading frequency, clamped to at most 0.95; its
value always lies in [0, 1] and is never 1. -/
theorem predict_fallback_form_and_bounds (isReg : String → Bool) (r : SurveyRecord) :
    predict_fallback isReg r =
      min (0.5 + (if r.income = "Above 75,000" ∨ r.income = "50,001 - 75,000" then (0.20 : ℚ) else 0)
          + (if r.totalSpend > 100 then (0.15 : ℚ) else 0)
          + (if isReg r.readFreq then (0.10 : ℚ) else 0)) 0.95 ∧
    0 ≤ predict_fallback isReg r ∧
    predict_fallback isReg r ≤ 0.95 ∧
    predict_fallback isReg r < 1 := by
  simp only [predict_fallback]
  split_ifs <;> norm_num [min_def]

/-- C3 counterexample: when pipeline training raises, the Live Prospect
Simulator page stops (st.error then st.stop) — no prediction is made by
anything, so subsequent predictions are not served by a fallback
predictor. -/
theorem training_failure_counterexample :
    build_prediction_pipeline [] (.error "ValueError") = (none, none, false) ∧
    simulatorPage [] (.error "ValueError") = .stopped :=
  ⟨rfl, rfl⟩

/-- C3 (amended): if training raises, `build_prediction_pipeline` returns
`ready = false` and the simulator page halts immediately without
producing any prediction; if training succeeds it returns `ready = true`
and the page shows the prediction form. -/
theorem training_failure_stops_simulator :
    (∀ (df : Dataset) (p : FittedPipeline),
        build_prediction_pipeline df (.ok p) = (some p, some df, true) ∧
        simulatorPage df (.ok p) = .formShown (some p) (some df)) ∧
    (∀ (df : Dataset) (e : String),
        build_prediction_pipeline df (.error e) = (none, none, false) ∧
        simulatorPage df (.error e) = .stopped) :=
  ⟨fun _ _ => ⟨rfl, rfl⟩, fun _ _ => ⟨rfl, rfl⟩⟩

/-- C4: `best_cluster` returns the label of a centroid at minimum
(squared, hence also Euclidean) distance among the four fixed centroids;
a point exactly equal to centroid k gets label k; and the point
(69.30, 168.79, 367.73) yields "Cluster 3 (Premium Enthusiast)". -/
theorem best_cluster_nearest (p : Point3) :
    (∀ j, cdist p (best_idx p) ≤ cdist p j) ∧
    (∀ k, p = center k → best_cluster p = clusterLabel k) ∧
    best_cluster (69.30, 168.79, 367.73) = "Cluster 3 (Premium Enthusiast)" := by
  refine ⟨best_idx_min p, ?_, ?_⟩
  · intro k hk
    subst hk
    unfold best_cluster
    rw [best_idx_center]
  · have h : ((69.30 : ℚ), (168.79 : ℚ), (367.73 : ℚ)) = center 3 := by
      norm_num [center]
    unfold best_cluster
    rw [h, best_idx_center]
    rfl

/-- C4 witness: the theorem applied to centroid 2 itself. -/
theorem best_cluster_nearest_witness :
    best_cluster (58.78, 142.43, 8.06) = "Cluster 2 (Social Visitor)" :=
  (best_cluster_nearest (58.78, 142.43, 8.06)).2.1 2 (by norm_num [center])

/-- C5: whenever the minimum distance is attained by two or more
centroids, `best_cluster` returns the label of the lowest-indexed
centroid among the minimizers (the scan replaces the running best only on
a strictly smaller distance). -/
theorem best_cluster_tie_break (p : Point3) (i : Fin 4)
    (hmin : ∀ j, cdist p i ≤ cdist p j)
    (hfirst : ∀ j, j < i → cdist p i < cdist p j)
    (htie : ∃ j, j ≠ i ∧ cdist p j = cdist p i) :
    best_cluster p = clusterLabel i := by
  unfold best_cluster
  rw [best_idx_eq_of_first_argmin p i hmin hfirst]

/-- C5 witness: the midpoint of centroids 0 and 1 is equidistant from
both, that distance is the minimum, and the match resolves to the
lower-indexed cluster 0. -/
theorem best_cluster_tie_break_witness :
    best_cluster (33.35, 60.395, 157.325) = "Cluster 0 (Budget Casual)" :=
  best_cluster_tie_break (33.35, 60.395, 157.325) 0
    (by intro j; fin_cases j <;> norm_num [cdist, dist2, center])
    (by intro j hj; fin_cases j <;> exact absurd hj (by decide))
    ⟨1, by decide, by norm_num [cdist, dist2, center]⟩

/-- C6: for every income bracket string and every set of visit reasons,
the clamped estimate lies in the closed interval [15, 300]. -/
theorem final_spend_bounds (reg_income : String) (reg_reason : List String) :
    15 ≤ final_spend reg_income reg_reason ∧ final_spend reg_income reg_reason ≤ 300 := by
  unfold final_spend
  exact ⟨le_max_left _ _, max_le (by norm_num) (min_le_left _ _)⟩

/-- C7 (code bug evidence): the simulator gives the brackets
"10,001 - 20,000" and "20,001 - 35,000" the same adjustment — none — so
it is not true that only the baseline bracket lacks an adjustment; the
hard-coded TASK_C_DRIVERS table of the same file lists -16.69 for
"10,001 - 20,000". The claimed scenario for "Above 75,000"
(35.0 + 117.24 = 152.24) does hold. -/
theorem income_bracket_shared_zero_adjustment :
    base_spend "10,001 - 20,000" [] = 35 ∧
    base_spend "20,001 - 35,000" [] = 35 ∧
    "10,001 - 20,000" ≠ "20,001 - 35,000" ∧
    final_spend "Above 75,000" [] = 152.24 := by
  refine ⟨?_, ?_, by decide, ?_⟩ <;>
    (simp [final_spend, base_spend]; try norm_num [min_def, max_def])

/-- C8: the estimator adds 26.42 exactly when the reasons contain both
"Food quality" and "Work/study", and subtracts 11.61 exactly when they
contain both "Coffee quality" and "Food quality"; the two adjustments are
independent of each other and of the income term; and the scenario
income "Less than 5,000" with reasons {Food quality, Work/study} yields
35.0 - 46.20 + 26.42 = 15.22. -/
theorem reason_adjustments_independent (reg_income : String) (rs : List String) :
    base_spend reg_income rs =
      base_spend reg_income [] + foodWorkBonus rs - coffeeFoodPenalty rs ∧
    final_spend "Less than 5,000" ["Food quality", "Work/study"] = 15.22 := by
  constructor
  · simp only [base_spend, foodWorkBonus, coffeeFoodPenalty, List.not_mem_nil,
      false_and, if_false]
    split_ifs <;> ring
  · simp [final_spend, base_spend]
    norm_num [min_def, max_def]

/-- C9: a categorical value absent from the fitted category list is
encoded as the all-zero vector, and the prediction still returns a value
in [0, 1] (prediction is a total function: it cannot raise). -/
theorem unseen_category_all_zero (cats : List String) (v : String) (h : v ∉ cats) :
    oneHot cats v = List.replicate cats.length 0 ∧
    ∀ (pl : FittedPipeline) (r : SurveyRecord),
      0 ≤ predict_proba pl r ∧ predict_proba pl r ≤ 1 :=
  ⟨oneHot_unseen cats v h, fun pl r => predict_proba_mem_unit pl r⟩

/-- C9 witness: the theorem applied to the category list [A, B] and the
unseen value Z, with the prediction bound instantiated at the sample
pipeline and record. -/
theorem unseen_category_all_zero_witness :
    oneHot ["A", "B"] "Z" = List.replicate 2 0 ∧
    (0 ≤ predict_proba samplePipeline sampleRecord ∧
      predict_proba samplePipeline sampleRecord ≤ 1) :=
  ⟨(unseen_category_all_zero ["A", "B"] "Z" (by decide)).1,
    (unseen_category_all_zero ["A", "B"] "Z" (by decide)).2 samplePipeline sampleRecord⟩

/-- C10: with at least 5 training rows, the predicted probability is the
fraction of positive labels among the 5 nearest neighbors, hence one of
0, 0.2, 0.4, 0.6, 0.8, 1. -/
theorem predict_proba_quantized (pl : FittedPipeline) (r : SurveyRecord)
    (h : 5 ≤ pl.train.length) :
    predict_proba pl r ∈ ([0, 0.2, 0.4, 0.6, 0.8, 1] : List ℚ) := by
  unfold predict_proba
  have hlen : ((sortByDist (featurize pl r) pl.train).take 5).length = 5 := by
    rw [List.length_take, length_sortByDist]
    omega
  have hc : ((sortByDist (featurize pl r) pl.train).take 5).countP (fun e => e.2) ≤
      ((sortByDist (featurize pl r) pl.train).take 5).length :=
    List.countP_le_length _
  rw [hlen] at hc
  rw [hlen]
  set m := ((sortByDist (featurize pl r) pl.train).take 5).countP (fun e => e.2) with hm
  interval_cases m <;> norm_num [List.mem_cons]

/-- C10 witness: the theorem applied to the sample pipeline (five
training rows) and the sample record. -/
theorem predict_proba_quantized_witness :
    5 ≤ samplePipeline.train.length ∧
    predict_proba samplePipeline sampleRecord ∈ ([0, 0.2, 0.4, 0.6, 0.8, 1] : List ℚ) :=
  ⟨by decide, predict_proba_quantized samplePipeline sampleRecord (by decide)⟩

end Cafe
